import Mathlib

/-!
Verification of the multiline detector (`useTextareaIsMultiline`).

This file gives a shallow embedding of the detector hook from the
repository source: the core `measure` routine (calibration plus the
hysteresis decision), and the two scheduling paths that feed it
(the debounce-timer path and the frame-aligned paste path).  Heights
are modelled as integers; the element readout taken at measurement
time is a `Sample`.  The scheduling layer is modelled operationally:
pending tasks are identified by fresh numeric ids, and an event-step
function records which task ids actually execute a measurement.
-/

namespace Multiline

/-- A synchronous readout of the host textarea at measurement time:
its `value` string and the two height measurements (`scrollHeight`
is the full content extent, `clientHeight` the visible extent). -/
structure Sample where
  value : String
  scrollHeight : Int
  clientHeight : Int
deriving DecidableEq, Repr

/-- The detector's persistent measurement state: the calibrated
baseline (`baseHeightRef`) and the published boolean. -/
structure DetState where
  baseHeight : Option Int
  isMultiline : Bool
deriving DecidableEq, Repr

/-- Initial detector state: no baseline, single-line. -/
def initDetState : DetState := { baseHeight := none, isMultiline := false }

/-- The core `measure` routine of the hook (source lines 21-61):
empty content resets; a null baseline is calibrated (using the
visible height when the content already overflows it by more than
`threshold`); then the hysteresis decision updates `isMultiline`,
recalibrating the baseline to the current content height on a
true-to-false release. -/
def measure (threshold releaseThreshold : Int) (st : DetState) (s : Sample) : DetState :=
  if s.value = "" then
    { baseHeight := none, isMultiline := false }
  else
    let scrollHeight := s.scrollHeight
    let clientHeight := s.clientHeight
    let baseHeight : Int :=
      match st.baseHeight with
      | none =>
          if scrollHeight > clientHeight + threshold then clientHeight
          else scrollHeight
      | some b => b
    let overflowHeight := scrollHeight - baseHeight
    let shouldBeMultiline := overflowHeight > threshold
    let shouldBeSingleLine := overflowHeight < -releaseThreshold
    if shouldBeMultiline ∧ st.isMultiline = false then
      { baseHeight := some baseHeight, isMultiline := true }
    else if shouldBeSingleLine ∧ st.isMultiline = true then
      { baseHeight := some scrollHeight, isMultiline := false }
    else
      { baseHeight := some baseHeight, isMultiline := st.isMultiline }

/-- Iterated `measure` over a list of samples (a sequence of
Evaluate calls). -/
def runMeasures (threshold releaseThreshold : Int) (st : DetState) : List Sample → DetState
  | [] => st
  | s :: ss => runMeasures threshold releaseThreshold (measure threshold releaseThreshold st s) ss

/-- The full hook state: detector state plus the two pending-task
slots (`debounceTimerRef` and `rafRef`, holding task ids), a fresh-id
counter, and logs of the ids of tasks that actually executed a
measurement on each path. -/
structure HookState where
  det : DetState
  debounceTimer : Option Nat
  raf : Option Nat
  nextId : Nat
  firedTimer : List Nat
  firedFrame : List Nat
deriving DecidableEq, Repr

/-- Initial hook state: nothing pending, nothing fired. -/
def initHookState : HookState :=
  { det := initDetState, debounceTimer := none, raf := none,
    nextId := 0, firedTimer := [], firedFrame := [] }

/-- `clearPendingTimers` (source lines 63-72): cancels the pending
task of both paths. -/
def clearPendingTimers (h : HookState) : HookState :=
  { h with debounceTimer := none, raf := none }

/-- `debouncedMeasure` (source lines 75-80): cancels only a pending
debounce timer, then schedules a fresh timer task.  It does not touch
the frame-task slot. -/
def debouncedMeasure (h : HookState) : HookState :=
  { h with debounceTimer := some h.nextId, nextId := h.nextId + 1 }

/-- `measureAfterFrame` (source lines 84-94), simplified: cancels only a
pending frame task, then schedules a fresh frame-aligned task.  This
collapses the source's two-stage task (a `requestAnimationFrame` whose
callback schedules a zero-delay timeout) into one atomically cancelable
unit; it is sound for the debounce-timer side, which this model is used
for, and the two stages are modelled faithfully in `TwoStage` below. -/
def measureAfterFrame (h : HookState) : HookState :=
  { h with raf := some h.nextId, nextId := h.nextId + 1 }

/-- `handleInput` (source lines 96-104): paste-originated input
clears both pending tasks and goes through the frame path; any other
input goes through the debounce path. -/
def handleInput (isPaste : Bool) (h : HookState) : HookState :=
  if isPaste then measureAfterFrame (clearPendingTimers h)
  else debouncedMeasure h

/-- `handlePaste` (source lines 106-109): clears both pending tasks,
then schedules on the frame path. -/
def handlePaste (h : HookState) : HookState :=
  measureAfterFrame (clearPendingTimers h)

/-- Events driving the hook: the two element notifications, and the
firing of a scheduled task (which reads a `Sample` from the element
at that moment).  A firing event executes `measure` only when its
path's slot still holds a pending task. -/
inductive Event where
  | input (isPaste : Bool)
  | paste
  | timerFire (s : Sample)
  | frameFire (s : Sample)
deriving DecidableEq, Repr

/-- One step of the hook's event loop, on the simplified scheduler: the
`frameFire` case fires and clears the frame slot atomically (see
`TwoStage.step` for the faithful two-stage paste path). -/
def step (threshold releaseThreshold : Int) (h : HookState) : Event → HookState
  | .input isPaste => handleInput isPaste h
  | .paste => handlePaste h
  | .timerFire s =>
      match h.debounceTimer with
      | some id =>
          { h with det := measure threshold releaseThreshold h.det s,
                   debounceTimer := none, firedTimer := h.firedTimer ++ [id] }
      | none => h
  | .frameFire s =>
      match h.raf with
      | some id =>
          { h with det := measure threshold releaseThreshold h.det s,
                   raf := none, firedFrame := h.firedFrame ++ [id] }
      | none => h

/-- Run the hook over a list of events. -/
def run (threshold releaseThreshold : Int) (h : HookState) : List Event → HookState
  | [] => h
  | e :: es => run threshold releaseThreshold (step threshold releaseThreshold h e) es

/-- Number of scheduled measurement tasks currently outstanding
across both paths. -/
def outstanding (h : HookState) : Nat :=
  (if h.debounceTimer.isSome then 1 else 0) + (if h.raf.isSome then 1 else 0)

/-! ## Faithful two-stage scheduler

The source's paste path is a two-stage task: `requestAnimationFrame`
returns a handle stored in `rafRef`, and the RAF callback schedules a
zero-delay timeout whose handle is never stored; the timeout callback
runs `measure` and assigns `rafRef.current = null`.  Cancellation via
`cancelAnimationFrame(rafRef.current)` therefore reaches a task only
while its RAF stage is still pending: once the RAF stage has fired, the
zero-delay stage can no longer be cancelled, and its completion nulls
`rafRef` whatever that ref currently holds.  The model below keeps, for
each path, both the handle ref and the multiset (as a list) of stages
the host environment still has scheduled. -/

namespace TwoStage

/-- Cancel (`clearTimeout` / `cancelAnimationFrame`) through a stored
handle: removes the handle's task from the environment's pending list if
it is still there, and is a no-op on a null or stale handle. -/
def cancelHandle (pending : List Nat) : Option Nat → List Nat
  | some i => pending.erase i
  | none => pending

/-- Hook state with the faithful scheduler: the two handle refs
(`debounceTimerRef`, `rafRef`), the environment's pending debounce
timeouts, pending RAF stages and pending zero-delay stages (task ids),
a fresh-id counter, and logs of the ids that executed a measurement. -/
structure HookState where
  det : DetState
  debounceHandle : Option Nat
  rafHandle : Option Nat
  pendingTimer : List Nat
  pendingRaf : List Nat
  pendingZero : List Nat
  nextId : Nat
  firedTimer : List Nat
  firedFrame : List Nat
deriving DecidableEq, Repr

/-- Initial hook state: nothing pending, nothing fired. -/
def initHookState : HookState :=
  { det := initDetState, debounceHandle := none, rafHandle := none,
    pendingTimer := [], pendingRaf := [], pendingZero := [],
    nextId := 0, firedTimer := [], firedFrame := [] }

/-- `clearPendingTimers` (source lines 63-72): `clearTimeout` on the
debounce handle, `cancelAnimationFrame` on the frame handle, null both.
A zero-delay stage is untouched: no handle for it exists. -/
def clearPendingTimers (g : HookState) : HookState :=
  { g with pendingTimer := cancelHandle g.pendingTimer g.debounceHandle,
           debounceHandle := none,
           pendingRaf := cancelHandle g.pendingRaf g.rafHandle,
           rafHandle := none }

/-- `debouncedMeasure` (source lines 75-80): `clearTimeout` on its own
handle only, then schedule a fresh timeout and store its handle. -/
def debouncedMeasure (g : HookState) : HookState :=
  { g with pendingTimer := cancelHandle g.pendingTimer g.debounceHandle ++ [g.nextId],
           debounceHandle := some g.nextId,
           nextId := g.nextId + 1 }

/-- `measureAfterFrame` (source lines 84-94): `cancelAnimationFrame` on
its own handle only — reaching the previous task only if its RAF stage
is still pending — then schedule a fresh RAF stage and store its
handle. -/
def measureAfterFrame (g : HookState) : HookState :=
  { g with pendingRaf := cancelHandle g.pendingRaf g.rafHandle ++ [g.nextId],
           rafHandle := some g.nextId,
           nextId := g.nextId + 1 }

/-- `handleInput` (source lines 96-104). -/
def handleInput (isPaste : Bool) (g : HookState) : HookState :=
  if isPaste then measureAfterFrame (clearPendingTimers g)
  else debouncedMeasure g

/-- `handlePaste` (source lines 106-109). -/
def handlePaste (g : HookState) : HookState :=
  measureAfterFrame (clearPendingTimers g)

/-- Events: the element notifications, a debounce timeout firing, a RAF
stage firing (which schedules the task's zero-delay stage), and a
zero-delay stage firing (which measures and nulls `rafRef`). -/
inductive Event where
  | input (isPaste : Bool)
  | paste
  | timerFire (i : Nat) (s : Sample)
  | rafFire (i : Nat)
  | zeroFire (i : Nat) (s : Sample)
deriving DecidableEq, Repr

/-- One step of the event loop on the faithful scheduler.  A firing
event acts only if the host still has that stage scheduled.  The
debounce timeout's callback is `measure` alone, so `debounceTimerRef`
keeps its stale handle after firing (`clearTimeout` on it later is a
no-op either way); the zero-delay callback runs `measure` and then
assigns `rafRef.current = null` unconditionally (source line 91),
clobbering whatever handle the ref holds at that moment. -/
def step (threshold releaseThreshold : Int) (g : HookState) : Event → HookState
  | .input isPaste => handleInput isPaste g
  | .paste => handlePaste g
  | .timerFire i s =>
      if i ∈ g.pendingTimer then
        { g with det := measure threshold releaseThreshold g.det s,
                 pendingTimer := g.pendingTimer.erase i,
                 firedTimer := g.firedTimer ++ [i] }
      else g
  | .rafFire i =>
      if i ∈ g.pendingRaf then
        { g with pendingRaf := g.pendingRaf.erase i,
                 pendingZero := g.pendingZero ++ [i] }
      else g
  | .zeroFire i s =>
      if i ∈ g.pendingZero then
        { g with det := measure threshold releaseThreshold g.det s,
                 pendingZero := g.pendingZero.erase i,
                 firedFrame := g.firedFrame ++ [i],
                 rafHandle := none }
      else g

/-- Run the faithful scheduler over a list of events. -/
def run (threshold releaseThreshold : Int) (g : HookState) : List Event → HookState
  | [] => g
  | e :: es => run threshold releaseThreshold (step threshold releaseThreshold g e) es

/-- Number of scheduled measurement stages currently outstanding across
both paths (pending debounce timeouts, RAF stages and zero-delay
stages). -/
def outstanding (g : HookState) : Nat :=
  g.pendingTimer.length + g.pendingRaf.length + g.pendingZero.length

/-- The debounce path's bookkeeping invariant: its pending list is
empty, or holds exactly the one timeout tracked by the stored handle. -/
def timerInv (g : HookState) : Prop :=
  g.pendingTimer = [] ∨ ∃ i, g.debounceHandle = some i ∧ g.pendingTimer = [i]

end TwoStage

/-! ## Unfolding lemmas for `measure` -/

/-- Unfolding of `measure` on non-empty content with an established baseline. -/
lemma measure_someBase (th rt b : Int) (m : Bool) (s : Sample) (he : s.value ≠ "") :
    measure th rt ⟨some b, m⟩ s =
      if s.scrollHeight - b > th ∧ m = false then ⟨some b, true⟩
      else if s.scrollHeight - b < -rt ∧ m = true then ⟨some s.scrollHeight, false⟩
      else ⟨some b, m⟩ := by
  unfold measure
  rw [if_neg he]

/-- Unfolding of `measure` on non-empty content with no baseline yet (calibration). -/
lemma measure_noneBase (th rt : Int) (m : Bool) (s : Sample) (he : s.value ≠ "") :
    measure th rt ⟨none, m⟩ s =
      (let base : Int :=
        if s.scrollHeight > s.clientHeight + th then s.clientHeight else s.scrollHeight
       if s.scrollHeight - base > th ∧ m = false then ⟨some base, true⟩
       else if s.scrollHeight - base < -rt ∧ m = true then ⟨some s.scrollHeight, false⟩
       else ⟨some base, m⟩) := by
  unfold measure
  rw [if_neg he]

/-! ## Claim C5: empty content resets the detector -/

/-- Claim C5: for every prior detector state, Evaluate on empty content
clears the baseline to `none` and leaves `isMultiline` false (the reset
state), regardless of the height readings of the sample, and makes no
other state change. -/
theorem claim_C5_empty_resets (th rt : Int) (st : DetState) (s : Sample)
    (h : s.value = "") :
    measure th rt st s = initDetState := by
  simp [measure, h, initDetState]

/-- Witness for C5 at a concrete input: a multiline, calibrated state on an
empty sample resets. -/
theorem claim_C5_empty_resets_witness :
    measure 4 12 ⟨some 30, true⟩ ⟨"", 99, 7⟩ = initDetState :=
  claim_C5_empty_resets 4 12 ⟨some 30, true⟩ ⟨"", 99, 7⟩ rfl

/-! ## Claim C10: isMultiline implies a baseline exists -/

/-- Claim C10: after any Evaluate call whatsoever, if the resulting
`isMultiline` is true then the resulting baseline is non-null; the empty
branch forces `isMultiline` false while nulling the baseline, and every
non-empty branch stores a baseline. -/
theorem claim_C10_multiline_has_baseline (th rt : Int) (st : DetState) (s : Sample)
    (h : (measure th rt st s).isMultiline = true) :
    (measure th rt st s).baseHeight ≠ none := by
  by_cases he : s.value = ""
  · simp [measure, he] at h
  · rcases st with ⟨b, m⟩
    rcases b with _ | b <;> simp [measure, he] <;> split_ifs <;> simp

/-- Witness for C10 at a concrete input where the result is multiline. -/
theorem claim_C10_multiline_has_baseline_witness :
    (measure 4 12 initDetState ⟨"p", 50, 20⟩).baseHeight ≠ none :=
  claim_C10_multiline_has_baseline 4 12 initDetState ⟨"p", 50, 20⟩ (by decide)

/-! ## Claim C2: first-measurement calibration -/

/-- Claim C2: on non-empty content with no baseline (first measurement
after empty/reset/initial bind, hence `isMultiline` false), the baseline
calibrates to `clientHeight` when `scrollHeight > clientHeight + threshold`
and to `scrollHeight` otherwise; and in the spec's paste scenario
(`contentHeight` 50, `visibleHeight` 20, threshold 4 on an empty-start
field) that same first Evaluate calibrates the baseline to 20 and sets
`isMultiline` true. -/
theorem claim_C2_calibration (th rt : Int) (st : DetState) (s : Sample)
    (hb : st.baseHeight = none) (hm : st.isMultiline = false) (he : s.value ≠ "") :
    (measure th rt st s).baseHeight =
      some (if s.scrollHeight > s.clientHeight + th then s.clientHeight
            else s.scrollHeight) ∧
    measure 4 12 initDetState ⟨"p", 50, 20⟩ = ⟨some 20, true⟩ := by
  refine ⟨?_, by decide⟩
  rcases st with ⟨b, m⟩
  simp only at hb hm
  subst hb
  subst hm
  simp [measure, he]
  split_ifs <;> simp

/-- Witness for C2 at the spec's paste scenario. -/
theorem claim_C2_calibration_witness :
    (measure 4 12 initDetState ⟨"p", 50, 20⟩).baseHeight =
      some (if (50 : Int) > 20 + 4 then 20 else 50) :=
  (claim_C2_calibration 4 12 initDetState ⟨"p", 50, 20⟩ rfl rfl (by decide)).1

/-! ## Claim C9: first-evaluation iff characterisation -/

/-- Claim C9: for threshold ≥ 0, a first Evaluate on non-empty content with
baseline null (and `isMultiline` false, as in every reachable null-baseline
state) yields `isMultiline = true` iff `scrollHeight > clientHeight +
threshold`; when instead `scrollHeight ≤ clientHeight + threshold`, the
baseline calibrates to `scrollHeight` itself, so the computed overflow is
zero and `isMultiline` stays false in that same call. -/
theorem claim_C9_first_eval_iff (th rt : Int) (st : DetState) (s : Sample)
    (hth : 0 ≤ th) (hb : st.baseHeight = none) (hm : st.isMultiline = false)
    (he : s.value ≠ "") :
    ((measure th rt st s).isMultiline = true ↔
      s.scrollHeight > s.clientHeight + th) ∧
    (s.scrollHeight ≤ s.clientHeight + th →
      (measure th rt st s).baseHeight = some s.scrollHeight ∧
      (measure th rt st s).isMultiline = false) := by
  rcases st with ⟨b, m⟩
  simp only at hb hm
  subst hb
  subst hm
  simp [measure, he]
  split_ifs with h1 h2 <;> simp <;> omega

/-- Witness for C9 at the spec's paste scenario (threshold 4). -/
theorem claim_C9_first_eval_iff_witness :
    ((measure 4 12 initDetState ⟨"p", 50, 20⟩).isMultiline = true ↔
      (50 : Int) > 20 + 4) ∧
    ((50 : Int) ≤ 20 + 4 →
      (measure 4 12 initDetState ⟨"p", 50, 20⟩).baseHeight = some 50 ∧
      (measure 4 12 initDetState ⟨"p", 50, 20⟩).isMultiline = false) :=
  claim_C9_first_eval_iff 4 12 initDetState ⟨"p", 50, 20⟩ (by decide) rfl rfl (by decide)


/-- Claim C1: with a calibrated baseline `b` on non-empty content, writing
`o` for `scrollHeight - b`: if `o > threshold` and not multiline, the call
sets `isMultiline` true keeping the baseline; else if `o < -releaseThreshold`
while multiline, it sets `isMultiline` false recalibrating the baseline to
the current `scrollHeight`; in every other case the state is unchanged.
Consequently (for a non-degenerate band, `-releaseThreshold ≤ threshold`)
`o > threshold` forces `isMultiline` true regardless of prior state, and a
true state stays true whenever `o` has not dropped below
`-releaseThreshold`. -/
theorem claim_C1_hysteresis (th rt b : Int) (st : DetState) (s : Sample)
    (he : s.value ≠ "") (hb : st.baseHeight = some b) :
    (s.scrollHeight - b > th ∧ st.isMultiline = false →
      measure th rt st s = ⟨some b, true⟩) ∧
    (s.scrollHeight - b < -rt ∧ st.isMultiline = true →
      measure th rt st s = ⟨some s.scrollHeight, false⟩) ∧
    (¬(s.scrollHeight - b > th ∧ st.isMultiline = false) →
      ¬(s.scrollHeight - b < -rt ∧ st.isMultiline = true) →
      measure th rt st s = st) ∧
    (-rt ≤ th → s.scrollHeight - b > th →
      (measure th rt st s).isMultiline = true) ∧
    (st.isMultiline = true → ¬(s.scrollHeight - b < -rt) →
      (measure th rt st s).isMultiline = true) := by
  rcases st with ⟨b', m⟩
  simp only at hb
  subst hb
  rw [measure_someBase th rt b m s he]
  refine ⟨?_, ?_, ?_, ?_, ?_⟩
  · rintro ⟨h1, h2⟩
    rw [if_pos ⟨h1, h2⟩]
  · rintro ⟨h1, h2⟩
    simp only at h2
    rw [if_neg (by simp [h2]), if_pos ⟨h1, h2⟩]
  · intro hn1 hn2
    rw [if_neg hn1, if_neg hn2]
  · intro hband h1
    cases m
    · rw [if_pos ⟨h1, rfl⟩]
    · rw [if_neg (by simp), if_neg (by simp; omega)]
  · intro hm1 hn
    simp only at hm1
    subst hm1
    rw [if_neg (by simp), if_neg (by simp_all)]

/-- Witness for C1: the spec scenario where the text grows from the
calibrated baseline 20 to height 26 with threshold 4 triggers multiline. -/
theorem claim_C1_hysteresis_witness :
    measure 4 12 ⟨some 20, false⟩ ⟨"x", 26, 20⟩ = ⟨some 20, true⟩ :=
  (claim_C1_hysteresis 4 12 20 ⟨some 20, false⟩ ⟨"x", 26, 20⟩ (by decide) rfl).1
    ⟨by decide, rfl⟩

/-- Claim C8: whenever an Evaluate call on non-empty content transitions
`isMultiline` from true to false, the resulting baseline equals the
`scrollHeight` read in that call, and (for threshold ≥ 0) an immediately
following Evaluate on the same sample computes overflow 0 and changes
nothing. -/
theorem claim_C8_release_noop (th rt : Int) (st : DetState) (s : Sample)
    (hth : 0 ≤ th) (he : s.value ≠ "") (hpre : st.isMultiline = true)
    (hpost : (measure th rt st s).isMultiline = false) :
    (measure th rt st s).baseHeight = some s.scrollHeight ∧
    measure th rt (measure th rt st s) s = measure th rt st s := by
  rcases st with ⟨b, m⟩
  simp only at hpre
  subst hpre
  have hstep : measure th rt ⟨b, true⟩ s = ⟨some s.scrollHeight, false⟩ := by
    rcases b with _ | b0
    · rw [measure_noneBase th rt true s he] at hpost ⊢
      simp only at hpost ⊢
      split_ifs at hpost ⊢ with h1 h2 <;> simp_all
    · rw [measure_someBase th rt b0 true s he] at hpost ⊢
      split_ifs at hpost ⊢ with h1 h2 <;> simp_all
  rw [hstep]
  refine ⟨rfl, ?_⟩
  rw [measure_someBase th rt s.scrollHeight false s he]
  rw [if_neg (by simp; omega), if_neg (by simp)]

/-- Witness for C8: the spec scenario where the field shrinks from baseline
20 to height 7 (overflow −13 < −12) releases to single-line with baseline 7,
and re-measuring the same sample changes nothing. -/
theorem claim_C8_release_noop_witness :
    (measure 4 12 ⟨some 20, true⟩ ⟨"x", 7, 20⟩).baseHeight = some 7 ∧
    measure 4 12 (measure 4 12 ⟨some 20, true⟩ ⟨"x", 7, 20⟩) ⟨"x", 7, 20⟩ =
      measure 4 12 ⟨some 20, true⟩ ⟨"x", 7, 20⟩ :=
  claim_C8_release_noop 4 12 ⟨some 20, true⟩ ⟨"x", 7, 20⟩ (by decide) (by decide)
    rfl (by decide)

/-- One Evaluate inside the hysteresis dead band changes nothing. -/
lemma measure_deadband (th rt b : Int) (st : DetState) (s : Sample)
    (hb : st.baseHeight = some b) (he : s.value ≠ "")
    (h1 : -rt < s.scrollHeight - b) (h2 : s.scrollHeight - b < th) :
    measure th rt st s = st := by
  rcases st with ⟨b', m⟩
  simp only at hb
  subst hb
  rw [measure_someBase th rt b m s he]
  rw [if_neg (by simp; omega), if_neg (by simp; omega)]

/-- Claim C6: over any sequence of Evaluate calls on non-empty content whose
overflows relative to a fixed calibrated baseline all lie strictly inside
the hysteresis band, the whole detector state — in particular
`isMultiline` — never changes from its value at the start. -/
theorem claim_C6_deadband_stable (th rt b : Int) (st : DetState) (ss : List Sample)
    (hb : st.baseHeight = some b)
    (hband : ∀ s ∈ ss, s.value ≠ "" ∧
      -rt < s.scrollHeight - b ∧ s.scrollHeight - b < th) :
    runMeasures th rt st ss = st := by
  induction ss with
  | nil => rfl
  | cons s ss ih =>
      obtain ⟨he, h1, h2⟩ := hband s (List.mem_cons_self s ss)
      rw [runMeasures, measure_deadband th rt b st s hb he h1 h2]
      exact ih fun t ht => hband t (List.mem_cons_of_mem s ht)

/-- Witness for C6: two in-band oscillations (overflow 3, then −3) around
baseline 20 leave the state untouched. -/
theorem claim_C6_deadband_stable_witness :
    runMeasures 4 12 ⟨some 20, false⟩ [⟨"x", 23, 20⟩, ⟨"y", 17, 20⟩] =
      ⟨some 20, false⟩ :=
  claim_C6_deadband_stable 4 12 20 ⟨some 20, false⟩ [⟨"x", 23, 20⟩, ⟨"y", 17, 20⟩]
    rfl (by decide)

/-- Counterexample to C4: starting uncalibrated, a single Evaluate on a
sample with `scrollHeight` 50 and `clientHeight` 20 (threshold 4) sets the
baseline to 20, which is not the `scrollHeight` of any sample processed so
far — the baseline can be an observed visible height, not a content
height. -/
theorem claim_C4_counterexample :
    (runMeasures 4 12 initDetState [⟨"x", 50, 20⟩]).baseHeight = some 20 ∧
    ¬ ∃ s ∈ [(⟨"x", 50, 20⟩ : Sample)],
        (runMeasures 4 12 initDetState [⟨"x", 50, 20⟩]).baseHeight =
          some s.scrollHeight := by
  decide

/-- One Evaluate either keeps the baseline, nulls it, or stores one of the
two heights read from the element during that call. -/
lemma measure_baseHeight_cases (th rt : Int) (st : DetState) (s : Sample) :
    (measure th rt st s).baseHeight = st.baseHeight ∨
    (measure th rt st s).baseHeight = none ∨
    (s.value ≠ "" ∧
      ((measure th rt st s).baseHeight = some s.scrollHeight ∨
       (measure th rt st s).baseHeight = some s.clientHeight)) := by
  by_cases he : s.value = ""
  · right; left
    simp [measure, he]
  · rcases st with ⟨b, m⟩
    rcases b with _ | b
    · right; right
      refine ⟨he, ?_⟩
      rw [measure_noneBase th rt m s he]
      simp only
      split_ifs <;> simp
    · rw [measure_someBase th rt b m s he]
      split_ifs <;> simp [he]

/-- Over a run, the final baseline is the starting one, or null, or one of
the two heights read from some processed sample. -/
lemma runMeasures_baseHeight_cases (th rt : Int) (st : DetState) (ss : List Sample) :
    (runMeasures th rt st ss).baseHeight = st.baseHeight ∨
    (runMeasures th rt st ss).baseHeight = none ∨
    ∃ s ∈ ss, s.value ≠ "" ∧
      ((runMeasures th rt st ss).baseHeight = some s.scrollHeight ∨
       (runMeasures th rt st ss).baseHeight = some s.clientHeight) := by
  induction ss generalizing st with
  | nil => left; rfl
  | cons s ss ih =>
      rw [runMeasures]
      rcases ih (measure th rt st s) with h | h | h
      · rcases measure_baseHeight_cases th rt st s with hc | hc | hc
        · left; rw [h, hc]
        · right; left; rw [h, hc]
        · right; right
          exact ⟨s, List.mem_cons_self s ss, hc.1, by rw [h]; exact hc.2⟩
      · right; left; exact h
      · right; right
        obtain ⟨t, ht, hht⟩ := h
        exact ⟨t, List.mem_cons_of_mem s ht, hht⟩

/-- Amended C4: after any sequence of Evaluate calls from the initial
state, the baseline is null, or equal to the `scrollHeight` (content
height) or the `clientHeight` (visible height) observed in some processed
non-empty sample — the visible-height case arising exactly from
first-measurement calibration of already-overflowing content. -/
theorem claim_C4_amended (th rt : Int) (ss : List Sample) :
    (runMeasures th rt initDetState ss).baseHeight = none ∨
    ∃ s ∈ ss, s.value ≠ "" ∧
      ((runMeasures th rt initDetState ss).baseHeight = some s.scrollHeight ∨
       (runMeasures th rt initDetState ss).baseHeight = some s.clientHeight) := by
  rcases runMeasures_baseHeight_cases th rt initDetState ss with h | h | h
  · left; rw [h]; rfl
  · left; exact h
  · right; exact h

/-- Counterexample to C3, on the faithful two-stage scheduler.  Trace 1:
a paste followed by ordinary typing leaves two tasks outstanding (the
paste path's RAF stage, id 0, plus the new debounce timeout, id 1), so
scheduling does not always cancel whichever task is pending.  Trace 2: a
paste whose RAF stage has fired, followed by a second paste, leaves two
paste-path tasks in flight at once — the first task's zero-delay stage
(id 0) is beyond cancellation.  Trace 3 (trace 2 continued): that stale
zero-delay stage then executes its measurement (id 0 enters the
fired-frame log) after the newer task was scheduled, and its callback
nulls the shared frame handle while the newer task's RAF stage (id 1) is
still pending — so a following paste cancels nothing and two RAF stages
(ids 1 and 2) end up pending simultaneously. -/
theorem claim_C3_counterexample :
    TwoStage.outstanding (TwoStage.run 4 12 TwoStage.initHookState
      [TwoStage.Event.paste, TwoStage.Event.input false]) = 2 ∧
    TwoStage.outstanding (TwoStage.run 4 12 TwoStage.initHookState
      [TwoStage.Event.paste, TwoStage.Event.rafFire 0, TwoStage.Event.paste]) = 2 ∧
    (TwoStage.run 4 12 TwoStage.initHookState
      [TwoStage.Event.paste, TwoStage.Event.rafFire 0,
       TwoStage.Event.paste]).pendingZero = [0] ∧
    (TwoStage.run 4 12 TwoStage.initHookState
      [TwoStage.Event.paste, TwoStage.Event.rafFire 0, TwoStage.Event.paste,
       TwoStage.Event.zeroFire 0 ⟨"x", 20, 20⟩]).firedFrame = [0] ∧
    (TwoStage.run 4 12 TwoStage.initHookState
      [TwoStage.Event.paste, TwoStage.Event.rafFire 0, TwoStage.Event.paste,
       TwoStage.Event.zeroFire 0 ⟨"x", 20, 20⟩]).rafHandle = none ∧
    (TwoStage.run 4 12 TwoStage.initHookState
      [TwoStage.Event.paste, TwoStage.Event.rafFire 0, TwoStage.Event.paste,
       TwoStage.Event.zeroFire 0 ⟨"x", 20, 20⟩]).pendingRaf = [1] ∧
    (TwoStage.run 4 12 TwoStage.initHookState
      [TwoStage.Event.paste, TwoStage.Event.rafFire 0, TwoStage.Event.paste,
       TwoStage.Event.zeroFire 0 ⟨"x", 20, 20⟩,
       TwoStage.Event.paste]).pendingRaf = [1, 2] := by
  decide

/-- Cancelling through an empty pending list yields the empty list. -/
lemma cancelHandle_nil (o : Option Nat) : TwoStage.cancelHandle [] o = [] := by
  cases o <;> simp [TwoStage.cancelHandle]

/-- Cancelling a singleton pending list through its own handle empties
it. -/
lemma cancelHandle_self (i : Nat) (l : List Nat) :
    TwoStage.cancelHandle (i :: l) (some i) = l := by
  simp [TwoStage.cancelHandle]

/-- One event-loop step preserves the debounce path's bookkeeping
invariant. -/
lemma timerInv_step (th rt : Int) (g : TwoStage.HookState) (e : TwoStage.Event)
    (hg : TwoStage.timerInv g) : TwoStage.timerInv (TwoStage.step th rt g e) := by
  have hclear : TwoStage.cancelHandle g.pendingTimer g.debounceHandle = [] := by
    rcases hg with h0 | ⟨i, hdi, hpi⟩
    · rw [h0]; exact cancelHandle_nil _
    · rw [hpi, hdi]; exact cancelHandle_self i []
  cases e with
  | input isPaste =>
      cases isPaste
      · right
        exact ⟨g.nextId, rfl, by
          simp only [TwoStage.step, TwoStage.handleInput, TwoStage.debouncedMeasure,
            Bool.false_eq_true, if_false, hclear, List.nil_append]⟩
      · left
        simp only [TwoStage.step, TwoStage.handleInput, TwoStage.measureAfterFrame,
          TwoStage.clearPendingTimers, if_true, hclear]
  | paste =>
      left
      simp only [TwoStage.step, TwoStage.handlePaste, TwoStage.measureAfterFrame,
        TwoStage.clearPendingTimers, hclear]
  | timerFire i s =>
      by_cases hi : i ∈ g.pendingTimer
      · rcases hg with h0 | ⟨j, hdj, hpj⟩
        · rw [h0] at hi; simp at hi
        · rw [hpj] at hi
          simp only [List.mem_singleton] at hi
          subst hi
          left
          simp only [TwoStage.step, hpj, List.mem_singleton, if_pos rfl]
          exact List.erase_cons_head i []
      · simpa only [TwoStage.step, if_neg hi] using hg
  | rafFire i =>
      by_cases hi : i ∈ g.pendingRaf
      · rcases hg with h0 | ⟨j, hdj, hpj⟩
        · left; simpa only [TwoStage.step, if_pos hi] using h0
        · right; exact ⟨j, by simpa only [TwoStage.step, if_pos hi] using hdj,
            by simpa only [TwoStage.step, if_pos hi] using hpj⟩
      · simpa only [TwoStage.step, if_neg hi] using hg
  | zeroFire i s =>
      by_cases hi : i ∈ g.pendingZero
      · rcases hg with h0 | ⟨j, hdj, hpj⟩
        · left; simpa only [TwoStage.step, if_pos hi] using h0
        · right; exact ⟨j, by simpa only [TwoStage.step, if_pos hi] using hdj,
            by simpa only [TwoStage.step, if_pos hi] using hpj⟩
      · simpa only [TwoStage.step, if_neg hi] using hg

/-- The debounce path's bookkeeping invariant, propagated over a run. -/
lemma timerInv_run (th rt : Int) (g : TwoStage.HookState) (es : List TwoStage.Event)
    (hg : TwoStage.timerInv g) : TwoStage.timerInv (TwoStage.run th rt g es) := by
  induction es generalizing g with
  | nil => exact hg
  | cons e es ih =>
      rw [TwoStage.run]
      exact ih (TwoStage.step th rt g e) (timerInv_step th rt g e hg)

/-- Amended C3, on the faithful two-stage scheduler: cancellation is
per-path and partial, not mutual.  (i) The debounce path keeps at most
one pending timeout at every instant; (ii) scheduling on it cancels
exactly its own previous timeout and touches neither stage of the paste
path; (iii) paste-path scheduling cancels the previous paste task only
through the stored frame handle — reaching it only while its RAF stage
is still pending — and never touches a zero-delay stage, which is
therefore beyond cancellation once its RAF stage has fired; (iv) a
zero-delay stage that fires nulls the shared frame handle
unconditionally, clobbering whatever handle the ref holds. -/
theorem claim_C3_amended :
    (∀ (th rt : Int) (es : List TwoStage.Event),
      (TwoStage.run th rt TwoStage.initHookState es).pendingTimer.length ≤ 1) ∧
    (∀ g : TwoStage.HookState,
      (TwoStage.debouncedMeasure g).pendingTimer =
        TwoStage.cancelHandle g.pendingTimer g.debounceHandle ++ [g.nextId] ∧
      (TwoStage.debouncedMeasure g).pendingRaf = g.pendingRaf ∧
      (TwoStage.debouncedMeasure g).pendingZero = g.pendingZero) ∧
    (∀ g : TwoStage.HookState,
      (TwoStage.handlePaste g).pendingRaf =
        TwoStage.cancelHandle g.pendingRaf g.rafHandle ++ [g.nextId] ∧
      (TwoStage.handlePaste g).pendingZero = g.pendingZero ∧
      (TwoStage.handlePaste g).pendingTimer =
        TwoStage.cancelHandle g.pendingTimer g.debounceHandle) ∧
    (∀ (th rt : Int) (g : TwoStage.HookState) (i : Nat) (s : Sample),
      (TwoStage.step th rt g (TwoStage.Event.zeroFire i s)).rafHandle = none ∨
      TwoStage.step th rt g (TwoStage.Event.zeroFire i s) = g) := by
  refine ⟨?_, ?_, ?_, ?_⟩
  · intro th rt es
    have hinv : TwoStage.timerInv (TwoStage.run th rt TwoStage.initHookState es) :=
      timerInv_run th rt TwoStage.initHookState es (Or.inl rfl)
    rcases hinv with h0 | ⟨i, hdi, hpi⟩
    · rw [h0]; exact Nat.zero_le 1
    · rw [hpi]; exact Nat.le_refl 1
  · intro g
    exact ⟨rfl, rfl, rfl⟩
  · intro g
    exact ⟨rfl, rfl, rfl⟩
  · intro th rt g i s
    by_cases hi : i ∈ g.pendingZero
    · left
      simp only [TwoStage.step, if_pos hi]
    · right
      simp only [TwoStage.step, if_neg hi]

/-- A task id strictly below every id the scheduler can still hand out,
absent from the fired-timer log and below any pending timer id, stays out
of the fired-timer log across one step. -/
lemma timer_id_safe_step (th rt : Int) (tid : Nat) (g : HookState) (e : Event)
    (h1 : tid ∉ g.firedTimer) (h2 : tid < g.nextId)
    (h3 : ∀ j, g.debounceTimer = some j → tid < j) :
    tid ∉ (step th rt g e).firedTimer ∧ tid < (step th rt g e).nextId ∧
    ∀ j, (step th rt g e).debounceTimer = some j → tid < j := by
  cases e with
  | input isPaste =>
      cases isPaste
      · refine ⟨h1, ?_, ?_⟩
        · simp [step, handleInput, debouncedMeasure]
          omega
        · intro j hj
          simp [step, handleInput, debouncedMeasure] at hj
          omega
      · refine ⟨h1, ?_, ?_⟩
        · simp [step, handleInput, measureAfterFrame, clearPendingTimers]
          omega
        · intro j hj
          simp [step, handleInput, measureAfterFrame, clearPendingTimers] at hj
  | paste =>
      refine ⟨h1, ?_, ?_⟩
      · simp [step, handlePaste, measureAfterFrame, clearPendingTimers]
        omega
      · intro j hj
        simp [step, handlePaste, measureAfterFrame, clearPendingTimers] at hj
  | timerFire s =>
      cases hdt : g.debounceTimer with
      | none => exact ⟨by simpa [step, hdt] using h1, by simpa [step, hdt] using h2,
          by simp [step, hdt]⟩
      | some j =>
          have hj : tid < j := h3 j hdt
          refine ⟨?_, by simpa [step, hdt] using h2, by simp [step, hdt]⟩
          simp [step, hdt, List.mem_append]
          exact ⟨h1, by omega⟩
  | frameFire s =>
      cases hr : g.raf with
      | none => exact ⟨by simpa [step, hr] using h1, by simpa [step, hr] using h2,
          by simpa [step, hr] using h3⟩
      | some j =>
          exact ⟨by simpa [step, hr] using h1, by simpa [step, hr] using h2,
            by simpa [step, hr] using h3⟩

/-- The safety of `timer_id_safe_step`, propagated over a whole run. -/
lemma timer_id_safe_run (th rt : Int) (tid : Nat) (g : HookState) (es : List Event)
    (h1 : tid ∉ g.firedTimer) (h2 : tid < g.nextId)
    (h3 : ∀ j, g.debounceTimer = some j → tid < j) :
    tid ∉ (run th rt g es).firedTimer := by
  induction es generalizing g with
  | nil => exact h1
  | cons e es ih =>
      obtain ⟨g1, g2, g3⟩ := timer_id_safe_step th rt tid g e h1 h2 h3
      rw [run]
      exact ih (step th rt g e) g1 g2 g3

/-- Claim C7: if a debounced task (id `tid`) is pending and a paste
notification arrives before it fires, then whatever events follow, that
debounced task never executes a measurement (its id never enters the
fired-timer log); the paste step leaves its own frame task pending
instead, and when that frame task fires it is the one that runs. -/
theorem claim_C7_paste_preempts (th rt : Int) (tid : Nat) (h : HookState)
    (es : List Event) (hp : h.debounceTimer = some tid) (hid : tid < h.nextId)
    (hf : tid ∉ h.firedTimer) :
    tid ∉ (run th rt h (Event.paste :: es)).firedTimer ∧
    (step th rt h Event.paste).raf = some h.nextId ∧
    ∀ s0 : Sample,
      (step th rt (step th rt h Event.paste) (Event.frameFire s0)).firedFrame =
        h.firedFrame ++ [h.nextId] := by
  refine ⟨?_, ?_, ?_⟩
  · rw [run]
    apply timer_id_safe_run th rt tid (step th rt h Event.paste) es
    · simpa [step, handlePaste, measureAfterFrame, clearPendingTimers] using hf
    · simp [step, handlePaste, measureAfterFrame, clearPendingTimers]
      omega
    · intro j hj
      simp [step, handlePaste, measureAfterFrame, clearPendingTimers] at hj
  · simp [step, handlePaste, measureAfterFrame, clearPendingTimers]
  · intro s0
    simp [step, handlePaste, measureAfterFrame, clearPendingTimers]

/-- Witness for C7: a pending debounced task (id 0) is preempted by a
paste; even when the timer-fire moment later arrives, no debounced
measurement executes. -/
theorem claim_C7_paste_preempts_witness :
    (0 : Nat) ∉ (run 4 12 (debouncedMeasure initHookState)
        (Event.paste :: [Event.timerFire ⟨"x", 20, 20⟩])).firedTimer :=
  (claim_C7_paste_preempts 4 12 0 (debouncedMeasure initHookState)
      [Event.timerFire ⟨"x", 20, 20⟩] rfl (by decide) (by decide)).1

end Multiline
